import Mathlib

/-!
Shallow embedding of the content-generation service layer of the `tools`
repository (directory `obsidian-to-article`): the shared prompt builder
(`llmService.js`), the local fallback backend (`mockLlmService.js`), the
external CLI tool backend and its factory (`geminiService.js`), the backend
factory (`llmServiceFactory.js`), and the OpenRouter backend's
response handling (modelled from the spec; its source file is not in the
repository snapshot, only its unit tests).

JavaScript strings are modelled as `List Char`.  Fallible operations return
`Except`, with the thrown `Error`'s message as the error value.
-/

/-- JavaScript strings, modelled as lists of characters. -/
abbrev Str := List Char

/-- Whitespace characters removed by JavaScript `String.prototype.trim`
(the common subset: space, tab, line feed, carriage return, vertical tab,
form feed). -/
def isJsSpace (c : Char) : Bool :=
  c = ' ' || c = '\t' || c = '\n' || c = '\r' || c = '\x0b' || c = '\x0c'

/-- JavaScript `s.trim()`: strip leading and trailing whitespace. -/
def jsTrim (s : Str) : Str :=
  ((s.dropWhile isJsSpace).reverse.dropWhile isJsSpace).reverse

/-- JavaScript `s.toLowerCase()` (ASCII range, which covers every
discriminant and tool-variant string the code compares). -/
def jsLower (s : Str) : Str := s.map Char.toLower

/-- JavaScript `s.toUpperCase()` (ASCII range). -/
def jsUpper (s : Str) : Str := s.map Char.toUpper

/-- Decimal representation of a natural number, as produced by JavaScript
template interpolation of `html.length`. -/
def natStr (n : Nat) : Str := (Nat.repr n).data

/-! ### Prompt Builder (`llmService.js`, `LLMService.buildConversionPrompt`) -/

/-- The visible truncation marker appended when the markup exceeds the cap
(`llmService.js` line 23). -/
def truncationMarker : Str := "[HTML truncated - too large]".data

/-- The possibly truncated markup embedded in the prompt
(`llmService.js` lines 22-24): markup longer than 50,000 characters is cut
at the cap and the truncation marker is appended after a blank line. -/
def truncatedHtml (html : Str) : Str :=
  if html.length > 50000 then html.take 50000 ++ "\n\n".data ++ truncationMarker
  else html

/-- Fixed prompt text preceding the interpolated markup length. -/
def promptIntro : Str :=
  "Extract the main article content from this HTML and convert to clean Markdown.\n\nFocus on: title, headings, paragraphs, lists, quotes, code blocks.\nIgnore: navigation, ads, sidebars, comments, footers.\n\nHTML (".data

/-- Fixed prompt text between the markup length and the embedded markup. -/
def promptMid : Str := " chars):\n".data

/-- Fixed prompt text following the embedded markup. -/
def promptFooter : Str := "\n\nReturn only clean Markdown:".data

/-- `LLMService.buildConversionPrompt` (`llmService.js` lines 21-35). -/
def buildConversionPrompt (html : Str) : Str :=
  promptIntro ++ natStr html.length ++ promptMid ++ truncatedHtml html ++ promptFooter

/-- The prompt text before the embedded markup, for a given markup length. -/
def promptHeader (len : Nat) : Str := promptIntro ++ natStr len ++ promptMid

/-! ### Generic lemmas about substring (infix) occurrences -/

/-- An infix occurrence that begins with a character absent from `a` must lie
entirely inside `b`. -/
theorem isInfix_append_right {a b p : Str} {c : Char} (hc : c ∉ a)
    (h : (c :: p) <:+: a ++ b) : (c :: p) <:+: b := by
  induction a with
  | nil => simpa using h
  | cons x a ih =>
    rw [List.cons_append] at h
    rcases List.infix_cons_iff.mp h with hpre | hinf
    · rcases List.cons_prefix_cons.mp hpre with ⟨rfl, -⟩
      exact absurd (List.mem_cons_self _ _) hc
    · exact ih (fun hm => hc (List.mem_cons_of_mem _ hm)) hinf

/-- An infix occurrence that ends with a character absent from `b` must lie
entirely inside `a`. -/
theorem isInfix_append_left {a b p : Str} {c : Char} (hc : c ∉ b)
    (h : (p ++ [c]) <:+: a ++ b) : (p ++ [c]) <:+: a := by
  have h1 := List.reverse_infix.mpr h
  rw [List.reverse_append, List.reverse_append, List.reverse_cons, List.reverse_nil,
    List.nil_append, List.singleton_append] at h1
  have h2 : (c :: p.reverse) <:+: a.reverse := by
    exact isInfix_append_right (by simpa using hc) h1
  have h3 : (p ++ [c]).reverse <:+: a.reverse := by
    rw [List.reverse_append, List.reverse_cons, List.reverse_nil, List.nil_append,
      List.singleton_append]
    exact h2
  exact List.reverse_infix.mp h3

/-- `Nat.digitChar` of a value below ten is a decimal digit. -/
theorem digitChar_isDigit (m : Nat) (h : m < 10) : (Nat.digitChar m).isDigit = true := by
  interval_cases m <;> decide

/-- Every character produced by `Nat.toDigitsCore` at base 10 is a decimal
digit or comes from the accumulator. -/
theorem mem_toDigitsCore_base10 (f : Nat) :
    ∀ (n : Nat) (acc : List Char) (c : Char), c ∈ Nat.toDigitsCore 10 f n acc →
      c ∈ acc ∨ c.isDigit = true := by
  induction f with
  | zero =>
    intro n acc c h
    simp only [Nat.toDigitsCore] at h
    exact Or.inl h
  | succ f ih =>
    intro n acc c h
    simp only [Nat.toDigitsCore] at h
    by_cases hdiv : n / 10 = 0
    · rw [if_pos hdiv] at h
      rcases List.mem_cons.mp h with hc | hc
      · exact Or.inr (hc ▸ digitChar_isDigit _ (Nat.mod_lt _ (by decide)))
      · exact Or.inl hc
    · rw [if_neg hdiv] at h
      rcases ih (n / 10) (Nat.digitChar (n % 10) :: acc) c h with hc | hc
      · rcases List.mem_cons.mp hc with hc2 | hc2
        · exact Or.inr (hc2 ▸ digitChar_isDigit _ (Nat.mod_lt _ (by decide)))
        · exact Or.inl hc2
      · exact Or.inr hc

/-- Every character of the decimal representation of a natural number is a
decimal digit. -/
theorem natStr_isDigit (n : Nat) (c : Char) (h : c ∈ natStr n) : c.isDigit = true := by
  have h' : c ∈ Nat.toDigitsCore 10 (n + 1) n [] := by
    simpa [natStr, Nat.repr, Nat.toDigits, List.asString] using h
  rcases mem_toDigitsCore_base10 (n + 1) n [] c h' with hc | hc
  · cases hc
  · exact hc

/-- The opening bracket of the truncation marker occurs nowhere in the prompt
text preceding the embedded markup. -/
theorem lbracket_not_mem_promptHeader (len : Nat) : '[' ∉ promptHeader len := by
  unfold promptHeader
  intro h
  rcases List.mem_append.mp h with h1 | h1
  · rcases List.mem_append.mp h1 with h2 | h2
    · revert h2; decide
    · exact absurd (natStr_isDigit _ _ h2) (by decide)
  · revert h1; decide

/-- For markup within the cap, the prompt is the fixed header, the markup
verbatim, and the fixed footer. -/
theorem buildConversionPrompt_eq_of_le {html : Str} (h : html.length ≤ 50000) :
    buildConversionPrompt html = promptHeader html.length ++ html ++ promptFooter := by
  unfold buildConversionPrompt promptHeader truncatedHtml
  rw [if_neg (by omega)]

/-- For markup beyond the cap, the prompt embeds exactly the markup's
50,000-character prefix, followed by a blank line and the truncation marker. -/
theorem buildConversionPrompt_eq_of_gt {html : Str} (h : html.length > 50000) :
    buildConversionPrompt html =
      promptHeader html.length ++ html.take 50000 ++ "\n\n".data ++ truncationMarker
        ++ promptFooter := by
  unfold buildConversionPrompt promptHeader truncatedHtml
  rw [if_pos h]
  simp only [List.append_assoc]

/-- The truncation marker written with its final bracket split off. -/
theorem truncationMarker_eq :
    truncationMarker = "[HTML truncated - too large".data ++ [']'] := by decide

/-- The truncation marker written with its initial bracket split off. -/
theorem truncationMarker_cons :
    truncationMarker = '[' :: "HTML truncated - too large]".data := by decide

/-- If markup within the cap does not itself contain the truncation marker,
the built prompt does not contain the marker either: an occurrence would have
to start at a bracket, and the fixed prompt text has none. -/
theorem marker_not_infix_of_le {html : Str} (hlen : html.length ≤ 50000)
    (hm : ¬ truncationMarker <:+: html) :
    ¬ truncationMarker <:+: buildConversionPrompt html := by
  intro h
  rw [buildConversionPrompt_eq_of_le hlen, List.append_assoc] at h
  rw [truncationMarker_cons] at h
  have h2 := isInfix_append_right (lbracket_not_mem_promptHeader html.length) h
  rw [← truncationMarker_cons, truncationMarker_eq] at h2
  have h3 := isInfix_append_left (by decide : ']' ∉ promptFooter) h2
  rw [← truncationMarker_eq] at h3
  exact hm h3

/-- C2 counterexample: the markup consisting of the truncation-marker text
itself has length 28 ≤ 50,000, yet the prompt built from it contains the
truncation marker, refuting the claim that for markup of length ≤ 50,000 the
output contains the markup verbatim and no truncation marker. -/
theorem buildConversionPrompt_marker_counterexample :
    truncationMarker.length ≤ 50000 ∧
    truncationMarker <:+: buildConversionPrompt truncationMarker := by
  refine ⟨by decide, ?_⟩
  rw [buildConversionPrompt_eq_of_le (by decide)]
  exact ⟨promptHeader truncationMarker.length, promptFooter, rfl⟩

/-- C2 (amended): for markup of length ≤ 50,000 the prompt is the fixed header,
the markup verbatim, and the fixed footer, and it contains the truncation
marker only if the markup itself does; for markup of length > 50,000 the
prompt embeds exactly the first 50,000 characters of the markup immediately
followed by a blank line and the truncation marker (the markup's remainder is
never embedded). -/
theorem buildConversionPrompt_truncation (html : Str) :
    (html.length ≤ 50000 →
      buildConversionPrompt html = promptHeader html.length ++ html ++ promptFooter ∧
      html <:+: buildConversionPrompt html ∧
      (¬ truncationMarker <:+: html → ¬ truncationMarker <:+: buildConversionPrompt html)) ∧
    (html.length > 50000 →
      buildConversionPrompt html =
        promptHeader html.length ++ html.take 50000 ++ "\n\n".data ++ truncationMarker
          ++ promptFooter) := by
  constructor
  · intro hlen
    refine ⟨buildConversionPrompt_eq_of_le hlen, ?_, marker_not_infix_of_le hlen⟩
    rw [buildConversionPrompt_eq_of_le hlen]
    exact ⟨promptHeader html.length, promptFooter, rfl⟩
  · exact buildConversionPrompt_eq_of_gt

/-- C2 witness: the amended theorem applied at a one-character markup (embedded
verbatim, no marker) and at a 50,001-character markup (truncated at the cap
with the marker appended). -/
theorem buildConversionPrompt_truncation_witness :
    (buildConversionPrompt "x".data = promptHeader 1 ++ "x".data ++ promptFooter ∧
      ¬ truncationMarker <:+: buildConversionPrompt "x".data) ∧
    buildConversionPrompt (List.replicate 50001 'a') =
      promptHeader (List.replicate 50001 'a').length
        ++ (List.replicate 50001 'a').take 50000 ++ "\n\n".data ++ truncationMarker
        ++ promptFooter := by
  constructor
  · have h := (buildConversionPrompt_truncation "x".data).1 (by decide)
    exact ⟨h.1, h.2.2 (by decide)⟩
  · exact (buildConversionPrompt_truncation (List.replicate 50001 'a')).2
      (by rw [List.length_replicate]; omega)

/-! ### External Tool Backend (`geminiService.js`, class `GeminiService`) -/

namespace GeminiService

/-- `GeminiService.getToolCommand` (`geminiService.js` lines 402-417): the
string handed to the shell for the configured CLI program and tool variant;
the variant selects only the invocation flags appended to the program. -/
def getToolCommand (cliCommand toolType : Str) : Str :=
  if toolType = "kiro".data then
    cliCommand ++ " chat --no-interactive --trust-all-tools".data
  else if toolType = "claude".data then cliCommand ++ " -p -".data
  else cliCommand ++ " -p -".data

/-- The options of the `execAsync` invocation made by
`GeminiService.convertHtmlToMarkdown` (`geminiService.js` lines 469-474):
`command` is the string handed to the shell, `input` is the payload written
to the subprocess's standard input stream. -/
structure ExecCall where
  command : Str
  input : Str
  maxBuffer : Nat
  timeoutMs : Nat

/-- The subprocess invocation `GeminiService.convertHtmlToMarkdown` builds
from the configured CLI command, tool variant and the given markup (the
prompt text it interpolates inline is exactly `buildConversionPrompt`). -/
def execCall (cliCommand toolType html : Str) : ExecCall :=
  { command := getToolCommand cliCommand toolType
  , input := buildConversionPrompt html
  , maxBuffer := 10 * 1024 * 1024
  , timeoutMs := 120000 }

end GeminiService

/-- Every built prompt ends with a colon (the last character of the fixed
instruction `Return only clean Markdown:`). -/
theorem buildConversionPrompt_ends_colon (html : Str) :
    ∃ p : Str, buildConversionPrompt html = p ++ [':'] := by
  refine ⟨promptIntro ++ natStr html.length ++ promptMid ++ truncatedHtml html
    ++ "\n\nReturn only clean Markdown".data, ?_⟩
  unfold buildConversionPrompt
  have h : promptFooter = "\n\nReturn only clean Markdown".data ++ [':'] := by decide
  rw [h]
  simp only [List.append_assoc]

/-- The shell command never contains the prompt unless the configured CLI
command string already contains it: the flags appended by each variant hold
no colon, while the prompt ends in one. -/
theorem prompt_not_infix_toolCommand (cliCommand toolType html : Str)
    (hni : ¬ buildConversionPrompt html <:+: cliCommand) :
    ¬ buildConversionPrompt html <:+: GeminiService.getToolCommand cliCommand toolType := by
  intro hcon
  obtain ⟨p, hp⟩ := buildConversionPrompt_ends_colon html
  rw [hp] at hni hcon
  unfold GeminiService.getToolCommand at hcon
  by_cases h1 : toolType = "kiro".data
  · rw [if_pos h1] at hcon
    exact hni (isInfix_append_left (by decide) hcon)
  · rw [if_neg h1] at hcon
    by_cases h2 : toolType = "claude".data
    · rw [if_pos h2] at hcon
      exact hni (isInfix_append_left (by decide) hcon)
    · rw [if_neg h2] at hcon
      exact hni (isInfix_append_left (by decide) hcon)

/-- C1: the `execAsync` invocation made by `GeminiService.convertHtmlToMarkdown`
delivers the built prompt exclusively via the subprocess's standard input
stream: the `input` payload is the prompt, the shell command equals
`getToolCommand`, which is a function of the configured CLI program and tool
variant alone (independent of the markup — the variant only selects invocation
flags), and the command string does not contain the built prompt (which embeds
the markup) unless the configured CLI program string itself contains it. -/
theorem geminiService_stdin_delivery (cliCommand toolType html : Str) :
    (GeminiService.execCall cliCommand toolType html).input = buildConversionPrompt html ∧
    (GeminiService.execCall cliCommand toolType html).command
      = GeminiService.getToolCommand cliCommand toolType ∧
    (∀ html2 : Str, (GeminiService.execCall cliCommand toolType html2).command
      = (GeminiService.execCall cliCommand toolType html).command) ∧
    (¬ buildConversionPrompt html <:+: cliCommand →
      ¬ buildConversionPrompt html <:+:
        (GeminiService.execCall cliCommand toolType html).command) :=
  ⟨rfl, rfl, fun _ => rfl, fun hni => prompt_not_infix_toolCommand cliCommand toolType html hni⟩

/-- C1 witness: with program `gemini`, variant `kiro` and empty markup, the
prompt goes to the subprocess's stdin and is not contained in the shell
command. -/
theorem geminiService_stdin_delivery_witness :
    (GeminiService.execCall "gemini".data "kiro".data []).input = buildConversionPrompt [] ∧
    ¬ buildConversionPrompt [] <:+:
      (GeminiService.execCall "gemini".data "kiro".data []).command := by
  refine ⟨(geminiService_stdin_delivery "gemini".data "kiro".data []).1, ?_⟩
  exact (geminiService_stdin_delivery "gemini".data "kiro".data []).2.2.2 (by decide)

/-! ### Local Fallback Backend (`mockLlmService.js`, class `MockLLMService`)

`MockLLMService.convertHtmlToMarkdown` parses the markup with cheerio (an
external, error-tolerant HTML library that never throws on malformed input),
removes script/style/nav/footer/aside subtrees, picks a main-content area,
and then reads only: the text of the first `h1`, the text of the first
`title`, and the matched block elements in document order.  The parse is
therefore modelled as an arbitrary `ParsedDoc`, and the theorems quantify
over every possible parse result. -/

namespace MockLLMService

/-- The tags matched by `contentArea.find('h1, h2, h3, h4, h5, h6, p, ul, ol,
blockquote')`. -/
inductive BlockTag
  | h1 | h2 | h3 | h4 | h5 | h6 | p | blockquote | ul | ol
deriving DecidableEq

/-- One matched element: its tag, its `$(elem).text()`, and (for `ul`/`ol`)
the `$(li).text()` of each of its `li` descendants. -/
structure ContentNode where
  tag : BlockTag
  text : Str
  listItems : List Str

/-- What the service reads from the cheerio parse: `h1Text` is
`$('h1').first().text()` (empty when no `h1` exists), `titleText` is
`$('title').first().text()`, `nodes` are the matched block elements of the
content area in document order. -/
structure ParsedDoc where
  h1Text : Str
  titleText : Str
  nodes : List ContentNode

/-- The parse of empty (or fully malformed, hence empty-bodied) markup:
no `h1`, no `title`, no content nodes. -/
def emptyParsedDoc : ParsedDoc := ⟨[], [], []⟩

/-- The markdown emitted for one matched node (the `switch` of
`mockLlmService.js` lines 44-77): nothing when the trimmed text is empty,
otherwise a heading/paragraph/quote line followed by a blank line, or one
bullet per list item followed by a blank line. -/
def renderNode (n : ContentNode) : Str :=
  let text := jsTrim n.text
  if text = [] then []
  else
    match n.tag with
    | .h1 => "# ".data ++ text ++ "\n\n".data
    | .h2 => "## ".data ++ text ++ "\n\n".data
    | .h3 => "### ".data ++ text ++ "\n\n".data
    | .h4 => "#### ".data ++ text ++ "\n\n".data
    | .h5 => "##### ".data ++ text ++ "\n\n".data
    | .h6 => "###### ".data ++ text ++ "\n\n".data
    | .p => text ++ "\n\n".data
    | .blockquote => "> ".data ++ text ++ "\n\n".data
    | .ul => (n.listItems.map (fun li => "- ".data ++ jsTrim li ++ "\n".data)).flatten
        ++ "\n".data
    | .ol => (n.listItems.map (fun li => "- ".data ++ jsTrim li ++ "\n".data)).flatten
        ++ "\n".data

/-- The title chosen by `mockLlmService.js` lines 29-30: the first `h1` text,
else the document `title` text, else the placeholder (JavaScript `||` treats
the empty string as falsy); the choice is then trimmed. -/
def titleOf (d : ParsedDoc) : Str :=
  jsTrim (if d.h1Text ≠ [] then d.h1Text
          else if d.titleText ≠ [] then d.titleText
          else "Untitled Article".data)

/-- `MockLLMService.convertHtmlToMarkdown` (`mockLlmService.js` lines 14-85)
over a parsed document.  `url` mirrors the source-identifier argument and
`now` the clock read by `Date.now()`; the source uses them only in console
logging, never in the returned markdown. -/
def convertHtmlToMarkdown (d : ParsedDoc) (url : Str) (now : Nat) : Str :=
  "# ".data ++ titleOf d ++ "\n\n".data ++ (d.nodes.map renderNode).flatten

end MockLLMService

/-- C3: the Local Fallback Backend's conversion is a total function — for
every possible parse of the markup (including the empty parse produced by
empty or malformed markup) it returns a document that starts with a title
line, and the empty parse yields exactly the placeholder title document
`# Untitled Article`. -/
theorem mockService_total_title :
    (∀ (d : MockLLMService.ParsedDoc) (url : Str) (now : Nat), ∃ rest : Str,
      MockLLMService.convertHtmlToMarkdown d url now = "# ".data ++ rest) ∧
    MockLLMService.convertHtmlToMarkdown MockLLMService.emptyParsedDoc [] 0
      = "# Untitled Article\n\n".data := by
  constructor
  · intro d url now
    refine ⟨MockLLMService.titleOf d ++ "\n\n".data ++ (d.nodes.map MockLLMService.renderNode).flatten, ?_⟩
    unfold MockLLMService.convertHtmlToMarkdown
    simp only [List.append_assoc]
  · decide

/-- C9: the Local Fallback Backend is deterministic and its output is a
function of the (parsed) markup alone — the source identifier and the clock
value do not influence the result, so two calls with identical markup give
byte-identical output. -/
theorem mockService_deterministic (d : MockLLMService.ParsedDoc)
    (url1 url2 : Str) (now1 now2 : Nat) :
    MockLLMService.convertHtmlToMarkdown d url1 now1
      = MockLLMService.convertHtmlToMarkdown d url2 now2 := rfl

/-! ### Backend factories (`llmServiceFactory.js` and `geminiService.js`) -/

/-- The service instances the factories construct; each corresponds to a
class implementing the uniform `convertHtmlToMarkdown` contract
(`MockLLMService`, `MockGeminiService`, `GeminiApiService`, `OllamaService`,
`OpenRouterService`, `GeminiService`). -/
inductive Backend
  | mockLLM
  | mockGemini
  | geminiApi (apiKey modelName : Str)
  | ollama (ollamaBaseUrl ollamaModel : Str)
  | openRouter (openrouterApiKey openrouterModel : Str)
  | geminiCli (cliCommand toolType : Str)
deriving DecidableEq

/-- JavaScript falsiness of a possibly absent string field: `undefined`,
`null`, or the empty string. -/
def jsFalsy : Option Str → Bool
  | none => true
  | some s => s.isEmpty

/-- The configuration mapping read by `createLLMService`, with the
destructuring defaults of `llmServiceFactory.js` lines 51-60; `none` models
an absent or `null` field. -/
structure LLMConfig where
  useMock : Bool := false
  serviceType : Str := "api".data
  apiKey : Option Str := none
  modelName : Str := "gemini-1.5-flash".data
  ollamaBaseUrl : Str := "http://localhost:11434".data
  ollamaModel : Str := "llama2".data
  openrouterApiKey : Option Str := none
  openrouterModel : Str := "openai/gpt-3.5-turbo".data

/-- `createLLMService` (`llmServiceFactory.js` lines 39-90), object form:
the legacy `useMock` shortcut, then the case-insensitive switch over the
discriminant, validating required credentials before construction. -/
def createLLMService (config : LLMConfig) : Except Str Backend :=
  if config.useMock then .ok .mockLLM
  else if jsLower config.serviceType = "mock".data then .ok .mockLLM
  else if jsLower config.serviceType = "api".data then
    if jsFalsy config.apiKey then
      .error "apiKey is required for API-based service".data
    else .ok (.geminiApi (config.apiKey.getD []) config.modelName)
  else if jsLower config.serviceType = "ollama".data then
    .ok (.ollama config.ollamaBaseUrl config.ollamaModel)
  else if jsLower config.serviceType = "openrouter".data then
    if jsFalsy config.openrouterApiKey then
      .error "openrouterApiKey is required for OpenRouter service".data
    else .ok (.openRouter (config.openrouterApiKey.getD []) config.openrouterModel)
  else
    .error ( "Invalid serviceType: ".data ++ config.serviceType
      ++ ". Must be one of: api, mock, ollama, openrouter".data)

/-- `createLLMService` legacy boolean form (`llmServiceFactory.js` lines
42-49): a boolean argument is normalized to a config with `useMock` set and
`serviceType` either `mock` or `api`. -/
def createLLMServiceLegacy (useMock : Bool) : Except Str Backend :=
  createLLMService
    { useMock := useMock
    , serviceType := if useMock then "mock".data else "api".data }

/-- The valid CLI tool variants (`geminiService.js` line 289). -/
def validToolTypes : List Str := [ "gemini".data, "kiro".data, "claude".data]

/-- The configuration mapping read by `createGeminiService`, with the
destructuring defaults of `geminiService.js` lines 254-261. -/
structure GeminiConfig where
  useMock : Bool := false
  serviceType : Str := "api".data
  apiKey : Option Str := none
  modelName : Str := "gemini-1.5-flash".data
  cliCommand : Str := "gemini".data
  toolType : Str := "gemini".data

/-- `const finalCliCommand = configCliCommand || cliCommand` (`geminiService.js`
line 264): the legacy trailing parameter is used when the config carries an
empty string (the JavaScript `||` fallback). -/
def finalCliCommand (config : GeminiConfig) (legacyCliCommand : Str) : Str :=
  if config.cliCommand.isEmpty then legacyCliCommand else config.cliCommand

/-- `const finalToolType = configToolType || toolType` (`geminiService.js`
line 265). -/
def finalToolType (config : GeminiConfig) (legacyToolType : Str) : Str :=
  if config.toolType.isEmpty then legacyToolType else config.toolType

/-- `createGeminiService` (`geminiService.js` lines 240-300), object form;
`legacyCliCommand` and `legacyToolType` are the trailing legacy parameters
(both default `gemini` at the call sites). -/
def createGeminiService (config : GeminiConfig)
    (legacyCliCommand legacyToolType : Str) : Except Str Backend :=
  let finalCliCommand := finalCliCommand config legacyCliCommand
  let finalToolType := finalToolType config legacyToolType
  if config.useMock then .ok .mockGemini
  else if jsLower config.serviceType = "mock".data then .ok .mockGemini
  else if jsLower config.serviceType = "api".data then
    if jsFalsy config.apiKey then
      .error "apiKey is required for API-based service".data
    else .ok (.geminiApi (config.apiKey.getD []) config.modelName)
  else if jsLower config.serviceType = "cli".data then
    if finalCliCommand.isEmpty then
      .error "CLI_COMMAND is required when not using mock service".data
    else if jsLower finalToolType ∈ validToolTypes then
      .ok (.geminiCli finalCliCommand (jsLower finalToolType))
    else
      .error ( "Invalid CLI_TOOL_TYPE: ".data ++ finalToolType
        ++ ". Must be one of: gemini, kiro, claude".data)
  else
    .error ( "Invalid serviceType: ".data ++ config.serviceType
      ++ ". Must be one of: api, cli, mock".data)

/-- The `mock` discriminant constructs the local fallback service. -/
theorem createLLMService_mock_case (config : LLMConfig) (huse : config.useMock = false)
    (hst : jsLower config.serviceType = "mock".data) :
    createLLMService config = .ok .mockLLM := by
  unfold createLLMService
  rw [huse, hst]
  simp

/-- The `api` discriminant with a falsy credential fails before construction. -/
theorem createLLMService_api_missing (config : LLMConfig) (huse : config.useMock = false)
    (hst : jsLower config.serviceType = "api".data) (hfal : jsFalsy config.apiKey = true) :
    createLLMService config = .error "apiKey is required for API-based service".data := by
  unfold createLLMService
  rw [huse, hst, hfal]
  simp

/-- The `api` discriminant with a non-empty credential constructs the Gemini
API service with that key and the configured model. -/
theorem createLLMService_api_ok (config : LLMConfig) (k : Str) (huse : config.useMock = false)
    (hst : jsLower config.serviceType = "api".data) (hk : config.apiKey = some k)
    (hne : k ≠ []) :
    createLLMService config = .ok (.geminiApi k config.modelName) := by
  obtain ⟨c, cs, rfl⟩ := List.exists_cons_of_ne_nil hne
  unfold createLLMService
  rw [huse, hst, hk]
  simp [jsFalsy]

/-- The `ollama` discriminant constructs the Ollama service. -/
theorem createLLMService_ollama_case (config : LLMConfig) (huse : config.useMock = false)
    (hst : jsLower config.serviceType = "ollama".data) :
    createLLMService config = .ok (.ollama config.ollamaBaseUrl config.ollamaModel) := by
  unfold createLLMService
  rw [huse, hst]
  simp

/-- The `openrouter` discriminant with a falsy credential fails before
construction. -/
theorem createLLMService_openrouter_missing (config : LLMConfig)
    (huse : config.useMock = false)
    (hst : jsLower config.serviceType = "openrouter".data)
    (hfal : jsFalsy config.openrouterApiKey = true) :
    createLLMService config
      = .error "openrouterApiKey is required for OpenRouter service".data := by
  unfold createLLMService
  rw [huse, hst, hfal]
  simp

/-- The `openrouter` discriminant with a non-empty credential constructs the
OpenRouter service with that key and the configured model. -/
theorem createLLMService_openrouter_ok (config : LLMConfig) (k : Str)
    (huse : config.useMock = false)
    (hst : jsLower config.serviceType = "openrouter".data)
    (hk : config.openrouterApiKey = some k) (hne : k ≠ []) :
    createLLMService config = .ok (.openRouter k config.openrouterModel) := by
  obtain ⟨c, cs, rfl⟩ := List.exists_cons_of_ne_nil hne
  unfold createLLMService
  rw [huse, hst, hk]
  simp [jsFalsy]

/-- Any discriminant outside the four `createLLMService` knows fails with
a message naming the rejected value and enumerating its valid set. -/
theorem createLLMService_unknown (config : LLMConfig) (huse : config.useMock = false)
    (hmem : jsLower config.serviceType
      ∉ [ "mock".data, "api".data, "ollama".data, "openrouter".data]) :
    createLLMService config = .error ( "Invalid serviceType: ".data ++ config.serviceType
      ++ ". Must be one of: api, mock, ollama, openrouter".data) := by
  simp only [List.mem_cons, List.not_mem_nil, or_false, not_or] at hmem
  obtain ⟨h1, h2, h3, h4⟩ := hmem
  unfold createLLMService
  rw [huse]
  rw [if_neg Bool.false_ne_true, if_neg h1, if_neg h2, if_neg h3, if_neg h4]

/-- With a non-empty configured program string, the legacy fallback is unused. -/
theorem finalCliCommand_of_ne (g : GeminiConfig) (lc : Str) (h : g.cliCommand ≠ []) :
    finalCliCommand g lc = g.cliCommand := by
  unfold finalCliCommand
  rw [if_neg]
  simp [List.isEmpty_iff, h]

/-- With a non-empty configured tool variant, the legacy fallback is unused. -/
theorem finalToolType_of_ne (g : GeminiConfig) (lt : Str) (h : g.toolType ≠ []) :
    finalToolType g lt = g.toolType := by
  unfold finalToolType
  rw [if_neg]
  simp [List.isEmpty_iff, h]

/-- Through `createGeminiService`, the `cli` discriminant with a non-empty
program and a tool variant in the valid set (any letter case) constructs the
CLI service with the variant normalized to lower case. -/
theorem createGeminiService_cli_ok (g : GeminiConfig) (lc lt : Str)
    (huse : g.useMock = false) (hst : jsLower g.serviceType = "cli".data)
    (hcc : g.cliCommand ≠ []) (htt : g.toolType ≠ [])
    (hmem : jsLower g.toolType ∈ validToolTypes) :
    createGeminiService g lc lt = .ok (.geminiCli g.cliCommand (jsLower g.toolType)) := by
  unfold createGeminiService
  rw [huse, hst, finalCliCommand_of_ne g lc hcc, finalToolType_of_ne g lt htt]
  rw [if_neg Bool.false_ne_true, if_neg (by decide), if_neg (by decide),
    if_pos rfl, if_neg (by simp [List.isEmpty_iff, hcc]), if_pos hmem]

/-- Through `createGeminiService`, the `cli` discriminant with a tool variant
outside the valid set fails with an error naming the rejected variant and
enumerating the valid set. -/
theorem createGeminiService_cli_invalid (g : GeminiConfig) (lc lt : Str)
    (huse : g.useMock = false) (hst : jsLower g.serviceType = "cli".data)
    (hcc : g.cliCommand ≠ []) (htt : g.toolType ≠ [])
    (hmem : jsLower g.toolType ∉ validToolTypes) :
    createGeminiService g lc lt = .error ( "Invalid CLI_TOOL_TYPE: ".data ++ g.toolType
      ++ ". Must be one of: gemini, kiro, claude".data) := by
  unfold createGeminiService
  rw [huse, hst, finalCliCommand_of_ne g lc hcc, finalToolType_of_ne g lt htt]
  rw [if_neg Bool.false_ne_true, if_neg (by decide), if_neg (by decide),
    if_pos rfl, if_neg (by simp [List.isEmpty_iff, hcc]), if_neg hmem]

/-- Any discriminant outside the three `createGeminiService` knows fails with
a message naming the rejected value and enumerating its valid set. -/
theorem createGeminiService_unknown (g : GeminiConfig) (lc lt : Str)
    (huse : g.useMock = false)
    (hmem : jsLower g.serviceType ∉ [ "mock".data, "api".data, "cli".data]) :
    createGeminiService g lc lt = .error ( "Invalid serviceType: ".data ++ g.serviceType
      ++ ". Must be one of: api, cli, mock".data) := by
  simp only [List.mem_cons, List.not_mem_nil, or_false, not_or] at hmem
  obtain ⟨h1, h2, h3⟩ := hmem
  unfold createGeminiService
  rw [huse]
  rw [if_neg Bool.false_ne_true, if_neg h1, if_neg h2, if_neg h3]

/-- Through `createGeminiService`, the `mock` discriminant constructs the mock
service. -/
theorem createGeminiService_mock_case (g : GeminiConfig) (lc lt : Str)
    (huse : g.useMock = false) (hst : jsLower g.serviceType = "mock".data) :
    createGeminiService g lc lt = .ok .mockGemini := by
  unfold createGeminiService
  rw [huse, hst]
  simp

/-- C4: constructing with the hosted-api discriminant (`api`) and a missing,
null, or empty credential fails with an error mentioning the credential field
`apiKey` before any backend is constructed; a non-empty credential constructs
the hosted-api backend carrying that credential.  The same holds for the
second-hosted-api discriminant (`openrouter`) and its credential field
`openrouterApiKey`. -/
theorem factory_credential_validation :
    (∀ config : LLMConfig, config.useMock = false →
      jsLower config.serviceType = "api".data → jsFalsy config.apiKey = true →
      ∃ msg : Str, createLLMService config = .error msg ∧ "apiKey".data <:+: msg) ∧
    (∀ (config : LLMConfig) (k : Str), config.useMock = false →
      jsLower config.serviceType = "api".data → config.apiKey = some k → k ≠ [] →
      createLLMService config = .ok (.geminiApi k config.modelName)) ∧
    (∀ config : LLMConfig, config.useMock = false →
      jsLower config.serviceType = "openrouter".data →
      jsFalsy config.openrouterApiKey = true →
      ∃ msg : Str, createLLMService config = .error msg
        ∧ "openrouterApiKey".data <:+: msg) ∧
    (∀ (config : LLMConfig) (k : Str), config.useMock = false →
      jsLower config.serviceType = "openrouter".data →
      config.openrouterApiKey = some k → k ≠ [] →
      createLLMService config = .ok (.openRouter k config.openrouterModel)) := by
  refine ⟨?_, createLLMService_api_ok, ?_, createLLMService_openrouter_ok⟩
  · intro config huse hst hfal
    exact ⟨ "apiKey is required for API-based service".data,
      createLLMService_api_missing config huse hst hfal,
      ⟨[], " is required for API-based service".data, rfl⟩⟩
  · intro config huse hst hfal
    exact ⟨ "openrouterApiKey is required for OpenRouter service".data,
      createLLMService_openrouter_missing config huse hst hfal,
      ⟨[], " is required for OpenRouter service".data, rfl⟩⟩

/-- C4 witness: with the `api` discriminant (written `API`, exercising
case-insensitivity) and no credential the construction fails mentioning
`apiKey`; with the mock credential `key` it constructs the hosted-api
backend; likewise for `openrouter`. -/
theorem factory_credential_validation_witness :
    (∃ msg : Str, createLLMService { serviceType := "API".data } = .error msg ∧
      "apiKey".data <:+: msg) ∧
    createLLMService { serviceType := "API".data, apiKey := some "key".data }
      = .ok (.geminiApi "key".data "gemini-1.5-flash".data) ∧
    (∃ msg : Str,
      createLLMService { serviceType := "openrouter".data, openrouterApiKey := some [] }
        = .error msg ∧ "openrouterApiKey".data <:+: msg) ∧
    createLLMService { serviceType := "openrouter".data, openrouterApiKey := some "key".data }
      = .ok (.openRouter "key".data "openai/gpt-3.5-turbo".data) := by
  refine ⟨?_, ?_, ?_, ?_⟩
  · exact factory_credential_validation.1 _ rfl (by decide) rfl
  · exact factory_credential_validation.2.1 _ "key".data rfl (by decide) rfl (by decide)
  · exact factory_credential_validation.2.2.1 _ rfl (by decide) rfl
  · exact factory_credential_validation.2.2.2 _ "key".data rfl (by decide) rfl (by decide)

/-- C10: the legacy boolean argument `false` is normalized to the `api`
discriminant with no credential, so it always fails with the
missing-credential error; only the boolean `true` yields the local fallback
backend. -/
theorem factory_legacy_boolean :
    createLLMServiceLegacy false = .error "apiKey is required for API-based service".data ∧
    createLLMServiceLegacy true = .ok .mockLLM := by
  constructor <;> rfl

/-- C5 counterexample: no single selector accepts all five backend kinds.
`createLLMService` — the factory of `llmServiceFactory.js` — given the
external-tool discriminant `cli` (with every other field available) does not
construct the external-tool backend but fails, with a message enumerating
only its four discriminants. -/
theorem createLLMService_cli_counterexample :
    createLLMService
        { serviceType := "cli".data, apiKey := some "key".data,
          openrouterApiKey := some "key".data }
      = .error "Invalid serviceType: cli. Must be one of: api, mock, ollama, openrouter".data
      := rfl

/-- C5 (amended): the selector layer is two factory functions.
`createLLMService` accepts exactly the discriminants `mock` (local fallback),
`api` (hosted API), `ollama` (local server) and `openrouter` (second hosted
API); `createGeminiService` accepts exactly `mock`, `api` and `cli` (external
tool) — together covering the five backend kinds.  Discriminants are compared
case-insensitively; each accepted discriminant, given its required fields,
constructs the corresponding backend; any other discriminant fails with an
error enumerating that factory's valid set. -/
theorem selector_discriminants :
    (∀ config : LLMConfig, config.useMock = false →
      jsLower config.serviceType = "mock".data → createLLMService config = .ok .mockLLM) ∧
    (∀ (config : LLMConfig) (k : Str), config.useMock = false →
      jsLower config.serviceType = "api".data → config.apiKey = some k → k ≠ [] →
      createLLMService config = .ok (.geminiApi k config.modelName)) ∧
    (∀ config : LLMConfig, config.useMock = false →
      jsLower config.serviceType = "ollama".data →
      createLLMService config = .ok (.ollama config.ollamaBaseUrl config.ollamaModel)) ∧
    (∀ (config : LLMConfig) (k : Str), config.useMock = false →
      jsLower config.serviceType = "openrouter".data →
      config.openrouterApiKey = some k → k ≠ [] →
      createLLMService config = .ok (.openRouter k config.openrouterModel)) ∧
    (∀ config : LLMConfig, config.useMock = false →
      jsLower config.serviceType
        ∉ [ "mock".data, "api".data, "ollama".data, "openrouter".data] →
      createLLMService config = .error ( "Invalid serviceType: ".data ++ config.serviceType
        ++ ". Must be one of: api, mock, ollama, openrouter".data)) ∧
    (∀ (g : GeminiConfig) (lc lt : Str), g.useMock = false →
      jsLower g.serviceType = "cli".data → g.cliCommand ≠ [] → g.toolType ≠ [] →
      jsLower g.toolType ∈ validToolTypes →
      createGeminiService g lc lt = .ok (.geminiCli g.cliCommand (jsLower g.toolType))) ∧
    (∀ (g : GeminiConfig) (lc lt : Str), g.useMock = false →
      jsLower g.serviceType ∉ [ "mock".data, "api".data, "cli".data] →
      createGeminiService g lc lt = .error ( "Invalid serviceType: ".data ++ g.serviceType
        ++ ". Must be one of: api, cli, mock".data)) :=
  ⟨createLLMService_mock_case, createLLMService_api_ok, createLLMService_ollama_case,
    createLLMService_openrouter_ok, createLLMService_unknown,
    createGeminiService_cli_ok, createGeminiService_unknown⟩

/-- C5 witness: each of the five kinds constructed through its factory (with
mixed-case discriminants), and unknown discriminants rejected by both
factories with their respective enumerations. -/
theorem selector_discriminants_witness :
    createLLMService { serviceType := "MOCK".data } = .ok .mockLLM ∧
    createLLMService { serviceType := "Api".data, apiKey := some "k".data }
      = .ok (.geminiApi "k".data "gemini-1.5-flash".data) ∧
    createLLMService { serviceType := "ollama".data }
      = .ok (.ollama "http://localhost:11434".data "llama2".data) ∧
    createLLMService { serviceType := "openrouter".data, openrouterApiKey := some "k".data }
      = .ok (.openRouter "k".data "openai/gpt-3.5-turbo".data) ∧
    createLLMService { serviceType := "webdav".data }
      = .error ( "Invalid serviceType: ".data ++ "webdav".data
        ++ ". Must be one of: api, mock, ollama, openrouter".data) ∧
    createGeminiService { serviceType := "cli".data } "gemini".data "gemini".data
      = .ok (.geminiCli "gemini".data "gemini".data) ∧
    createGeminiService { serviceType := "ollama".data } "gemini".data "gemini".data
      = .error ( "Invalid serviceType: ".data ++ "ollama".data
        ++ ". Must be one of: api, cli, mock".data) := by
  refine ⟨?_, ?_, ?_, ?_, ?_, ?_, ?_⟩
  · exact selector_discriminants.1 _ rfl (by decide)
  · exact selector_discriminants.2.1 _ "k".data rfl (by decide) rfl (by decide)
  · exact selector_discriminants.2.2.1 _ rfl (by decide)
  · exact selector_discriminants.2.2.2.1 _ "k".data rfl (by decide) rfl (by decide)
  · exact selector_discriminants.2.2.2.2.1 _ rfl (by decide)
  · have h := selector_discriminants.2.2.2.2.2.1
      { serviceType := "cli".data } "gemini".data "gemini".data
      rfl (by decide) (by decide) (by decide) (by decide)
    simpa using h
  · exact selector_discriminants.2.2.2.2.2.2 _ "gemini".data "gemini".data rfl (by decide)

/-- C6: constructing the External Tool Backend with a tool variant outside the
fixed valid set fails at construction time with an error naming the variant
and enumerating the valid variants (each of `gemini`, `kiro`, `claude` occurs
in the message); a variant in the set, in any letter case, constructs the
backend. -/
theorem externalTool_variant_validation :
    (∀ (g : GeminiConfig) (lc lt : Str), g.useMock = false →
      jsLower g.serviceType = "cli".data → g.cliCommand ≠ [] → g.toolType ≠ [] →
      jsLower g.toolType ∉ validToolTypes →
      createGeminiService g lc lt = .error ( "Invalid CLI_TOOL_TYPE: ".data ++ g.toolType
          ++ ". Must be one of: gemini, kiro, claude".data) ∧
      (∀ v ∈ validToolTypes, v <:+: ( "Invalid CLI_TOOL_TYPE: ".data ++ g.toolType
          ++ ". Must be one of: gemini, kiro, claude".data))) ∧
    (∀ (g : GeminiConfig) (lc lt : Str), g.useMock = false →
      jsLower g.serviceType = "cli".data → g.cliCommand ≠ [] → g.toolType ≠ [] →
      jsLower g.toolType ∈ validToolTypes →
      createGeminiService g lc lt = .ok (.geminiCli g.cliCommand (jsLower g.toolType))) := by
  refine ⟨?_, createGeminiService_cli_ok⟩
  intro g lc lt huse hst hcc htt hmem
  refine ⟨createGeminiService_cli_invalid g lc lt huse hst hcc htt hmem, ?_⟩
  intro v hv
  have htail : ( ". Must be one of: gemini, kiro, claude").data
      <:+: ( "Invalid CLI_TOOL_TYPE: ".data ++ g.toolType
        ++ ". Must be one of: gemini, kiro, claude".data) :=
    List.IsSuffix.isInfix (List.suffix_append _ _)
  refine List.IsInfix.trans ?_ htail
  simp only [validToolTypes, List.mem_cons, List.not_mem_nil, or_false] at hv
  rcases hv with hv | hv | hv
  · rw [hv]; decide
  · rw [hv]; decide
  · rw [hv]; decide

/-- C6 witness: the variant `gpt` is rejected with the enumerating message;
the variant `KIRO` (upper case) constructs the backend normalized to `kiro`. -/
theorem externalTool_variant_validation_witness :
    createGeminiService { serviceType := "cli".data, toolType := "gpt".data }
        "gemini".data "gemini".data
      = .error ( "Invalid CLI_TOOL_TYPE: ".data ++ "gpt".data
        ++ ". Must be one of: gemini, kiro, claude".data) ∧
    "kiro".data <:+: ( "Invalid CLI_TOOL_TYPE: ".data ++ "gpt".data
        ++ ". Must be one of: gemini, kiro, claude".data) ∧
    createGeminiService { serviceType := "cli".data, toolType := "KIRO".data }
        "gemini".data "gemini".data
      = .ok (.geminiCli "gemini".data "kiro".data) := by
  have h1 := externalTool_variant_validation.1
    { serviceType := "cli".data, toolType := "gpt".data } "gemini".data "gemini".data
    rfl (by decide) (by decide) (by decide) (by decide)
  have h2 := externalTool_variant_validation.2
    { serviceType := "cli".data, toolType := "KIRO".data } "gemini".data "gemini".data
    rfl (by decide) (by decide) (by decide) (by decide)
  exact ⟨h1.1, h1.2 "kiro".data (by decide), by simpa using h2⟩

/-! ### External Tool Backend result handling (`geminiService.js` lines 496-507) -/

namespace GeminiService

/-- The resolved result of `execAsync` when the subprocess exits with code
zero: the captured standard output and standard error streams. -/
structure ExecSuccess where
  stdout : Str
  stderr : Str

/-- The error with which `execAsync` rejects (nonzero exit, timeout kill, or
output-buffer overflow); `convertHtmlToMarkdown` rethrows it unchanged. -/
structure ExecFailure where
  message : Str

/-- The tail of `GeminiService.convertHtmlToMarkdown` (`geminiService.js`
lines 496-507 and the surrounding try/catch): a rejected exec is rethrown;
on a zero exit the captured stdout is trimmed, an empty result throws
`No content generated by <TOOL> CLI`, and a non-empty result is returned. -/
def processToolResult (toolType : Str) :
    Except ExecFailure ExecSuccess → Except Str Str
  | .error e => .error e.message
  | .ok s =>
    if jsTrim s.stdout = [] then
      .error ( "No content generated by ".data ++ jsUpper toolType ++ " CLI".data)
    else .ok (jsTrim s.stdout)

end GeminiService

/-- C7: when the subprocess exits with code zero but its captured standard
output is empty after trimming, the conversion fails with the
no-content error rather than returning an empty string as success; with
non-empty trimmed stdout it returns exactly that trimmed text, and a
returned success is never the empty string. -/
theorem externalTool_empty_output (toolType : Str) (s : GeminiService.ExecSuccess) :
    (jsTrim s.stdout = [] →
      GeminiService.processToolResult toolType (.ok s)
        = .error ( "No content generated by ".data ++ jsUpper toolType ++ " CLI".data)) ∧
    (jsTrim s.stdout ≠ [] →
      GeminiService.processToolResult toolType (.ok s) = .ok (jsTrim s.stdout)) ∧
    (∀ out : Str, GeminiService.processToolResult toolType (.ok s) = .ok out → out ≠ []) := by
  refine ⟨?_, ?_, ?_⟩
  · intro h
    simp only [GeminiService.processToolResult]
    rw [if_pos h]
  · intro h
    simp only [GeminiService.processToolResult]
    rw [if_neg h]
  · intro out hout
    simp only [GeminiService.processToolResult] at hout
    by_cases h : jsTrim s.stdout = []
    · rw [if_pos h] at hout
      cases hout
    · rw [if_neg h] at hout
      cases hout
      exact h

/-- C7 witness: whitespace-only stdout with exit code zero yields the
no-content error for the `gemini` tool; stdout ` hi ` yields the trimmed
success `hi`. -/
theorem externalTool_empty_output_witness :
    GeminiService.processToolResult "gemini".data (.ok ⟨ "  \n".data, []⟩)
      = .error ( "No content generated by ".data ++ jsUpper "gemini".data ++ " CLI".data) ∧
    GeminiService.processToolResult "gemini".data (.ok ⟨ " hi ".data, []⟩)
      = .ok (jsTrim " hi ".data) := by
  constructor
  · exact (externalTool_empty_output "gemini".data ⟨ "  \n".data, []⟩).1 (by decide)
  · exact (externalTool_empty_output "gemini".data ⟨ " hi ".data, []⟩).2.1 (by decide)

/-! ### Second Hosted API Backend (`OpenRouterService`) -/

namespace OpenRouterService

/-- Modelled from the spec: `openrouterService.js` is absent from the
repository snapshot (only its unit tests in `__tests__/setup.test.js` are
present).  Per spec section 4.5 and those tests, the backend reads of an HTTP
response: the success flag (`response.ok`), the numeric status, the raw body
text (`await response.text()`, read on failure), and the first choice's
message content from the parsed JSON (`none` models a missing or `null`
`choices[0].message.content`). -/
structure HttpResponse where
  ok : Bool
  status : Nat
  bodyText : Str
  content : Option Str

/-- Modelled from the spec: the response handling of
`OpenRouterService.convertHtmlToMarkdown` (source file missing; behaviour
fixed by spec section 4.5 and the unit tests in `setup.test.js` lines
1012-1183): a non-2xx response throws
`OpenRouter API error (<status>): <body text>`; a successful response with
missing or empty message content throws
`No content generated by OpenRouter API`; otherwise the content is returned
trimmed. -/
def convertResponse (r : HttpResponse) : Except Str Str :=
  if r.ok = false then
    .error ( "OpenRouter API error (".data ++ natStr r.status ++ "): ".data ++ r.bodyText)
  else
    match r.content with
    | none => .error "No content generated by OpenRouter API".data
    | some content =>
      if content = [] then .error "No content generated by OpenRouter API".data
      else .ok (jsTrim content)

end OpenRouterService

/-- C8: for every non-2xx HTTP response, the Second Hosted API Backend's
conversion fails with an error whose message embeds the decimal status code
and the raw response body text. -/
theorem openRouter_error_detail (r : OpenRouterService.HttpResponse)
    (hr : r.ok = false) :
    ∃ msg : Str, OpenRouterService.convertResponse r = .error msg ∧
      natStr r.status <:+: msg ∧ r.bodyText <:+: msg := by
  refine ⟨ "OpenRouter API error (".data ++ natStr r.status ++ "): ".data ++ r.bodyText,
    ?_, ?_, ?_⟩
  · unfold OpenRouterService.convertResponse
    rw [hr]
    simp
  · exact ⟨ "OpenRouter API error (".data, "): ".data ++ r.bodyText, by
      simp [List.append_assoc]⟩
  · exact ⟨ "OpenRouter API error (".data ++ natStr r.status ++ "): ".data, [], by
      simp [List.append_assoc]⟩

/-- C8 witness: a stub response with status 429 and body `slow down` yields an
error containing `429` and `slow down`. -/
theorem openRouter_error_detail_witness :
    ∃ msg : Str,
      OpenRouterService.convertResponse ⟨false, 429, "slow down".data, none⟩
        = .error msg ∧ "429".data <:+: msg ∧ "slow down".data <:+: msg := by
  obtain ⟨msg, h1, h2, h3⟩ :=
    openRouter_error_detail ⟨false, 429, "slow down".data, none⟩ rfl
  have h429 : natStr 429 = "429".data := by decide
  exact ⟨msg, h1, h429 ▸ h2, h3⟩
